import Mathlib

/-!
Verification development for the RDM HTTP gateway module
(src/olad/RDMHttpModule.cpp).

The definitions below are a shallow embedding of the module's
orchestration core, translated from the source:

  * the response-status classifier (CheckForRDMSuccessWithError,
    lines 1734-1766);
  * the start-address write path (SetStartAddress, lines 1271-1293);
  * the section discovery engine (SupportedSectionsDeviceInfoHandler,
    lines 657-746);
  * the per-universe UID label-resolution engine (HandleUIDList,
    ResolveNextUID, UpdateUIDManufacturerLabel, UpdateUIDDeviceLabel,
    lines 382-589);
  * the sensor read chain (SensorDefinitionHandler / SensorValueHandler,
    lines 1329-1420).

Machine integers are modelled as Nat/Int (value ranges are stated
explicitly where they matter), strings as Lean String, the std::map and
std::queue members as association lists and FIFO lists.  The HTTP/JSON
presentation layer (response->Append of JSON text) is out of scope per
the spec and is not modelled; what is modelled is the state the handlers
mutate and the decisions they take.  A handful of helpers live in the
repository outside the three files under src/ (string utilities, RDM
helper tables, parameter-id constants); each such definition carries a
doc comment starting `Modelled from the spec:` naming what is missing.
-/

/-! ## Response classifier (lines 1734-1766) -/

/-- The response-type enumeration of `ola::rdm::ResponseStatus`, declared in
the repository's client headers outside src/.  The switch in
`CheckForRDMSuccessWithError` (lines 1738-1765) enumerates exactly these
five values (its `default` arm is unreachable for this type). -/
inductive ResponseType
  | TRANSPORT_ERROR
  | BROADCAST_REQUEST
  | REQUEST_NACKED
  | MALFORMED_RESPONSE
  | VALID_RESPONSE
deriving DecidableEq

/-- The slice of `ola::rdm::ResponseStatus` the module reads: the accessor
methods `ResponseType()`, `Error()` and `NackReason()` become fields. -/
structure ResponseStatus where
  response_type : ResponseType
  error : String
  nack_reason : Nat
deriving DecidableEq

/-- Modelled from the spec: `NackReasonToString` from the RDM helper library
(not under src/) renders a nack reason code as text.  Only the fact that it
produces some string matters to any claim; the concrete text does not. -/
def NackReasonToString (reason : Nat) : String := toString reason

/-- `RDMHttpModule::CheckForRDMSuccessWithError` (lines 1734-1766).  Returns
the boolean result together with the error string the source writes through
its out-parameter; `none` models the arms that leave the out-parameter
untouched (the valid and broadcast arms). -/
def CheckForRDMSuccessWithError (status : ResponseStatus) :
    Bool × Option String :=
  match status.response_type with
  | ResponseType.TRANSPORT_ERROR =>
      (false, some ("RDM command error: " ++ status.error))
  | ResponseType.BROADCAST_REQUEST => (false, none)
  | ResponseType.REQUEST_NACKED =>
      (false, some ("Request was NACKED with code: " ++
        NackReasonToString status.nack_reason))
  | ResponseType.MALFORMED_RESPONSE =>
      (false, some ("Malformed RDM response " ++ status.error))
  | ResponseType.VALID_RESPONSE => (true, none)

/-- `RDMHttpModule::CheckForRDMSuccess` (lines 1719-1727): the boolean
collapse; the source also logs the error string, which changes no state. -/
def CheckForRDMSuccess (status : ResponseStatus) : Bool :=
  (CheckForRDMSuccessWithError status).1

/-- The spec's `ResponseOutcome` classification (§3/§4.4): the five tags,
with the payload each tag carries. -/
inductive ResponseOutcome
  | VALID
  | BROADCAST_NO_REPLY
  | REJECTED (reason : String)
  | MALFORMED (detail : String)
  | TRANSPORT_FAILURE (detail : String)
deriving DecidableEq

/-- The classification each arm of the `CheckForRDMSuccessWithError` switch
performs, read off the source arm by arm: the transport arm produces the
transport-failure outcome and its error text, the broadcast arm the
broadcast outcome, the nack arm the rejection with its reason text, the
malformed arm the malformed outcome, the valid arm the valid outcome. -/
def classifyOutcome (status : ResponseStatus) : ResponseOutcome :=
  match status.response_type with
  | ResponseType.TRANSPORT_ERROR =>
      ResponseOutcome.TRANSPORT_FAILURE ("RDM command error: " ++ status.error)
  | ResponseType.BROADCAST_REQUEST => ResponseOutcome.BROADCAST_NO_REPLY
  | ResponseType.REQUEST_NACKED =>
      ResponseOutcome.REJECTED ("Request was NACKED with code: " ++
        NackReasonToString status.nack_reason)
  | ResponseType.MALFORMED_RESPONSE =>
      ResponseOutcome.MALFORMED ("Malformed RDM response " ++ status.error)
  | ResponseType.VALID_RESPONSE => ResponseOutcome.VALID

/-- Discriminant of a `ResponseOutcome` tag. -/
def outcomeIndex : ResponseOutcome → Nat
  | ResponseOutcome.VALID => 0
  | ResponseOutcome.BROADCAST_NO_REPLY => 1
  | ResponseOutcome.REJECTED _ => 2
  | ResponseOutcome.MALFORMED _ => 3
  | ResponseOutcome.TRANSPORT_FAILURE _ => 4

/-- Discriminant of a low-level response type, numbered so that each of the
five low-level outcomes pairs with the `ResponseOutcome` tag of the same
index (0 valid, 1 broadcast, 2 rejected, 3 malformed, 4 transport). -/
def typeIndex : ResponseType → Nat
  | ResponseType.VALID_RESPONSE => 0
  | ResponseType.BROADCAST_REQUEST => 1
  | ResponseType.REQUEST_NACKED => 2
  | ResponseType.MALFORMED_RESPONSE => 3
  | ResponseType.TRANSPORT_ERROR => 4

/-! ## Start-address write path (lines 1271-1293) -/

/-- `DMX_UNIVERSE_SIZE` from the repository's base headers (outside src/):
the DMX address space holds 512 slots; `GetStartAddressHandler`
(line 1262) uses `DMX_UNIVERSE_SIZE - 1` as the display maximum. -/
def DMX_UNIVERSE_SIZE : Nat := 512

/-- Decimal value of a digit string. -/
def decimalValue (s : String) : Nat :=
  s.toList.foldl (fun a c => a * 10 + (c.toNat - 48)) 0

/-- Modelled from the spec: `StringToUInt16` from the repository's string
utilities (not under src/).  It parses a decimal string into the 16-bit
unsigned argument of the set-request, failing on empty or non-numeric input
and on values that do not fit in 16 bits — per the spec's scenario in which
the out-of-type-range value "70000" fails validation locally. -/
def StringToUInt16 (s : String) : Option Nat :=
  if s.toList ≠ [] ∧ s.toList.all Char.isDigit ∧ decimalValue s < 65536 then
    some (decimalValue s)
  else
    none

/-- Observable outcome of `RDMHttpModule::SetStartAddress`: either the
validation error returned without any network request, or the set-request
issued with the parsed address (its completion is then classified by
`SetHandler` through `CheckForRDMSuccessWithError`). -/
inductive SetStartAddressResult
  | validationError (msg : String)
  | requestIssued (address : Nat)
deriving DecidableEq

/-- `RDMHttpModule::SetStartAddress` (lines 1271-1293): parse the `address`
url parameter with `StringToUInt16`; on failure return
"Invalid start address" without touching the network, otherwise call
`SetDMXAddress` with the parsed 16-bit value. -/
def SetStartAddress (dmx_address : String) : SetStartAddressResult :=
  match StringToUInt16 dmx_address with
  | none => SetStartAddressResult.validationError "Invalid start address"
  | some address => SetStartAddressResult.requestIssued address

/-! ## Section discovery engine (lines 657-746) -/

/-- Modelled from the spec: the RDM parameter-id constants the discovery
scan recognises, declared in the repository's RDM headers outside src/.
Their values are the E1.20 standard ones; the claims depend only on the
constants being pairwise distinct. -/
def PID_PRODUCT_DETAIL_ID_LIST : Nat := 0x0070

def PID_DEVICE_MODEL_DESCRIPTION : Nat := 0x0080

def PID_MANUFACTURER_LABEL : Nat := 0x0081

def PID_DEVICE_LABEL : Nat := 0x0082

def PID_LANGUAGE : Nat := 0x00B0

def PID_BOOT_SOFTWARE_VERSION_ID : Nat := 0x00C0

def PID_BOOT_SOFTWARE_VERSION_LABEL : Nat := 0x00C1

def PID_DMX_START_ADDRESS : Nat := 0x00F0

def PID_SENSOR_DEFINITION : Nat := 0x0200

def PID_SENSOR_VALUE : Nat := 0x0201

def PID_DEVICE_HOURS : Nat := 0x0400

def PID_LAMP_HOURS : Nat := 0x0401

/-- The section identifier constants of the module (lines 76-86). -/
def BOOT_SOFTWARE_SECTION : String := "boot_software"

def DEVICE_HOURS_SECTION : String := "device_hours"

def DEVICE_INFO_SECTION : String := "device_info"

def DEVICE_LABEL_SECTION : String := "device_label"

def DMX_ADDRESS_SECTION : String := "dmx_address"

def IDENTIFY_SECTION : String := "identify"

def LAMP_HOURS_SECTION : String := "lamp_hours"

def LANGUAGE_SECTION : String := "language"

def MANUFACTURER_LABEL_SECTION : String := "manufacturer_label"

def PRODUCT_DETAIL_SECTION : String := "product_detail"

def SENSOR_SECTION : String := "sensor"

/-- `RDMHttpModule::section_info` (declared in the module's header): one
discovered section, `AddSection` (lines 1790-1796) appends one of these;
the hint defaults to the empty string when `AddSection` is called without
a hint argument. -/
structure section_info where
  id : String
  name : String
  hint : String
deriving DecidableEq

/-- The slice of `ola::rdm::DeviceDescriptor` the discovery phase reads
(lines 713-719): the addressable-slot footprint and the sensor count.
The descriptor's remaining fields feed only the device-info rendering. -/
structure DeviceDescriptor where
  dmx_footprint : Nat
  sensor_count : Nat
deriving DecidableEq

/-- One iteration of the supported-pid scan (the switch of lines 677-707),
threading the accumulator `(sections, dmx_address_added,
include_software_version)`.  Note the `PID_LAMP_HOURS` arm: the source
appends a section whose id is `DEVICE_HOURS_SECTION` (with display name
"Lamp Hours"), exactly as on line 701. -/
def scanStep (acc : List section_info × Bool × Bool) (pid : Nat) :
    List section_info × Bool × Bool :=
  if pid = PID_MANUFACTURER_LABEL then
    (acc.1 ++ [⟨MANUFACTURER_LABEL_SECTION, "Manufacturer Label", ""⟩],
      acc.2.1, acc.2.2)
  else if pid = PID_DEVICE_LABEL then
    (acc.1 ++ [⟨DEVICE_LABEL_SECTION, "Device Label", ""⟩], acc.2.1, acc.2.2)
  else if pid = PID_LANGUAGE then
    (acc.1 ++ [⟨LANGUAGE_SECTION, "Language", ""⟩], acc.2.1, acc.2.2)
  else if pid = PID_BOOT_SOFTWARE_VERSION_ID ∨
          pid = PID_BOOT_SOFTWARE_VERSION_LABEL then
    (acc.1, acc.2.1, true)
  else if pid = PID_DMX_START_ADDRESS then
    (acc.1 ++ [⟨DMX_ADDRESS_SECTION, "DMX Start Address", ""⟩], true, acc.2.2)
  else if pid = PID_DEVICE_HOURS then
    (acc.1 ++ [⟨DEVICE_HOURS_SECTION, "Device Hours", ""⟩], acc.2.1, acc.2.2)
  else if pid = PID_LAMP_HOURS then
    (acc.1 ++ [⟨DEVICE_HOURS_SECTION, "Lamp Hours", ""⟩], acc.2.1, acc.2.2)
  else if pid = PID_PRODUCT_DETAIL_ID_LIST then
    (acc.1 ++ [⟨PRODUCT_DETAIL_SECTION, "Product Details", ""⟩],
      acc.2.1, acc.2.2)
  else
    acc

/-- The two core sections added unconditionally (lines 666-672): the hint
flag is "m" when the device-model-description pid is in the supported list
(the `std::set` built on line 664 serves only membership tests on
`pid_list`, modelled by list membership), and the very same `hint` string
is passed to both the device-info and the identify-mode section. -/
def discoveryBase (pid_list : List Nat) : List section_info :=
  [⟨DEVICE_INFO_SECTION, "Device Info",
      if PID_DEVICE_MODEL_DESCRIPTION ∈ pid_list then "m" else ""⟩,
   ⟨IDENTIFY_SECTION, "Identify Mode",
      if PID_DEVICE_MODEL_DESCRIPTION ∈ pid_list then "m" else ""⟩]

/-- The single scan over the supported-pid list (lines 674-707), starting
from the two core sections with both flags false. -/
def discoveryScan (pid_list : List Nat) : List section_info × Bool × Bool :=
  pid_list.foldl scanStep (discoveryBase pid_list, false, false)

/-- The sensor sections emitted for a device with `n` sensors
(lines 719-724): hint is the 0-based index, the heading counts from 1. -/
def sensorSections (n : Nat) : List section_info :=
  (List.range n).map
    (fun i => ⟨SENSOR_SECTION, "Sensor " ++ toString (i + 1), toString i⟩)

/-- `RDMHttpModule::SupportedSectionsDeviceInfoHandler` (lines 657-746),
up to the list of sections it renders: the core pair, the scan, the
deferred boot-software section, then — only when the device-info fetch
succeeded — the footprint-triggered start-address fallback and the sensor
sections.  The final `std::sort` with `lt_section_info` (line 728,
comparator declared in the module's header outside src/) only reorders the
list; the claims about this handler concern which sections are present
with which fields, which any permutation preserves, so the embedding stops
before the sort. -/
def SupportedSectionsDeviceInfoHandler (pid_list : List Nat)
    (status : ResponseStatus) (device : DeviceDescriptor) :
    List section_info :=
  let scanned := discoveryScan pid_list
  let withBoot :=
    if scanned.2.2 then
      scanned.1 ++ [⟨BOOT_SOFTWARE_SECTION, "Boot Software Version", ""⟩]
    else scanned.1
  if CheckForRDMSuccess status then
    let withDmx :=
      if device.dmx_footprint ≠ 0 ∧ scanned.2.1 = false then
        withBoot ++ [⟨DMX_ADDRESS_SECTION, "DMX Start Address", ""⟩]
      else withBoot
    if device.sensor_count ≠ 0 ∧ PID_SENSOR_DEFINITION ∈ pid_list ∧
        PID_SENSOR_VALUE ∈ pid_list then
      withDmx ++ sensorSections device.sensor_count
    else withDmx
  else withBoot

/-- The sections of a discovery result carrying a given section id. -/
def sectionsWithId (l : List section_info) (x : String) : List section_info :=
  l.filter (fun s => decide (s.id = x))

/-! ## UID resolution engine (lines 344-589) -/

/-- `ola::rdm::UID` (declared in the repository's RDM headers outside
src/): manufacturer id + device id pair, totally ordered, used as a map
key and never mutated after creation. -/
structure UID where
  manufacturer_id : Nat
  device_id : Nat
deriving DecidableEq

/-- `RDMHttpModule::uid_resolve_action` (module header): the two label
fetches queued per UID. -/
inductive uid_resolve_action
  | RESOLVE_MANUFACTURER
  | RESOLVE_DEVICE
deriving DecidableEq

/-- `RDMHttpModule::resolved_uid` (module header): cached labels plus the
liveness mark the eviction sweep reads. -/
structure resolved_uid where
  manufacturer : String
  device : String
  active : Bool
deriving DecidableEq

/-- `RDMHttpModule::uid_resolution_state` (module header): one universe's
resolution state.  The `std::map<UID, resolved_uid>` member becomes an
association list with pairwise-distinct keys and the `std::queue` member a
FIFO list whose head is the queue front. -/
structure uid_resolution_state where
  resolved_uids : List (UID × resolved_uid)
  pending_uids : List (UID × uid_resolve_action)
  uid_resolution_running : Bool
  active : Bool
deriving DecidableEq

/-- Map lookup (`resolved_uids.find(uid)`). -/
def lookupUID : List (UID × resolved_uid) → UID → Option resolved_uid
  | [], _ => none
  | (k, v) :: rest, u => if k = u then some v else lookupUID rest u

/-- Map insert-or-assign (`resolved_uids[uid] = entry`, and writes through
a found iterator). -/
def insertUID : List (UID × resolved_uid) → UID → resolved_uid →
    List (UID × resolved_uid)
  | [], u, v => [(u, v)]
  | (k, w) :: rest, u, v =>
      if k = u then (k, v) :: rest else (k, w) :: insertUID rest u v

/-- The state `GetUniverseUidsOrCreate` (lines 575-589) builds for a
universe seen for the first time: empty map and queue, resolution not
running, universe marked active. -/
def initialUidState : uid_resolution_state :=
  { resolved_uids := [], pending_uids := [],
    uid_resolution_running := false, active := true }

/-- The mark pass of `HandleUIDList` (lines 393-397): every cached entry
is marked inactive before the reported set is processed. -/
def markInactive (l : List (UID × resolved_uid)) :
    List (UID × resolved_uid) :=
  l.map (fun p => (p.1, { p.2 with active := false }))

/-- The per-UID body of the `HandleUIDList` loop (lines 404-423): a UID
with no cached entry gets its two resolution actions queued — manufacturer
first, then device — and an eagerly created empty entry marked active; a
UID already cached is only re-marked active, its labels untouched. -/
def processUID (st : uid_resolution_state) (u : UID) : uid_resolution_state :=
  match lookupUID st.resolved_uids u with
  | none =>
      { st with
        pending_uids := st.pending_uids ++
          [(u, uid_resolve_action.RESOLVE_MANUFACTURER),
           (u, uid_resolve_action.RESOLVE_DEVICE)],
        resolved_uids := insertUID st.resolved_uids u
          { manufacturer := "", device := "", active := true } }
  | some entry =>
      { st with
        resolved_uids := insertUID st.resolved_uids u
          { entry with active := true } }

/-- The eviction sweep of `HandleUIDList` (lines 442-451): entries not
re-marked active — UIDs absent from the latest report — are erased. -/
def sweepInactive (l : List (UID × resolved_uid)) :
    List (UID × resolved_uid) :=
  l.filter (fun p => p.2.active)

/-- The state update `HandleUIDList` performs (lines 393-451): mark every
cached entry inactive, process the reported UID set in order, then evict
the entries left inactive.  The JSON the handler also renders is
presentation and changes no engine state. -/
def handleUIDListUpdate (uids : List UID) (s : uid_resolution_state) :
    uid_resolution_state :=
  let s1 := { s with resolved_uids := markInactive s.resolved_uids }
  let s2 := uids.foldl processUID s1
  { s2 with resolved_uids := sweepInactive s2.resolved_uids }

/-- The while loop of `ResolveNextUID` (lines 470-509) acting on the
pending queue: attempt a send for the front entry, pop it, and stop at
the first send the transport accepts; `send` is the transport's
synchronous verdict (the return value of
`GetManufacturerLabel`/`GetDeviceLabel`).  Returns the remaining queue
and `sent_request`.  The switch's unknown-action arm cannot arise: the
action type has exactly the two values, so every iteration pops. -/
def resolveFrom (send : UID → uid_resolve_action → Bool) :
    List (UID × uid_resolve_action) →
    List (UID × uid_resolve_action) × Bool
  | [] => ([], false)
  | (u, act) :: rest =>
      if send u act then (rest, true) else resolveFrom send rest

/-- `RDMHttpModule::ResolveNextUID` (lines 462-510) on one universe's
state (the source first looks the universe up and no-ops when it is
unknown; the per-universe embedding starts from an existing state).  The
flag ends true exactly when the loop issued a request, and ends false
exactly when the loop exhausted the queue — including the empty-queue
entry case of lines 471-474.  The Bool is `sent_request`. -/
def ResolveNextUID (send : UID → uid_resolve_action → Bool)
    (s : uid_resolution_state) : uid_resolution_state × Bool :=
  let r := resolveFrom send s.pending_uids
  if r.2 then
    ({ s with uid_resolution_running := true, pending_uids := r.1 }, true)
  else
    ({ s with uid_resolution_running := false, pending_uids := r.1 }, false)

/-- `RDMHttpModule::HandleUIDList` (lines 382-455): on a transport error
the handler only serves the error string; otherwise it updates the
universe's state and then kicks `ResolveNextUID` when no resolution is
running.  The Bool records whether the call issued a resolution
request. -/
def HandleUIDList (send : UID → uid_resolve_action → Bool)
    (uids : List UID) (err : String) (s : uid_resolution_state) :
    uid_resolution_state × Bool :=
  if err ≠ "" then (s, false)
  else
    let s3 := handleUIDListUpdate uids s
    if s3.uid_resolution_running = false then ResolveNextUID send s3
    else (s3, false)

/-- The cache write of `UpdateUIDManufacturerLabel` (lines 525-530), also
performed by the section read chain in `GetManufacturerLabelHandler`
(lines 978-985): the label lands in the entry if the UID is still
tracked; a write to an evicted UID is silently dropped. -/
def writeManufacturerLabel (uid : UID) (label : String)
    (s : uid_resolution_state) : uid_resolution_state :=
  match lookupUID s.resolved_uids uid with
  | some e =>
      { s with resolved_uids :=
          insertUID s.resolved_uids uid ({ e with manufacturer := label }) }
  | none => s

/-- The cache write of `UpdateUIDDeviceLabel` (lines 548-553), also
performed by `GetDeviceLabelHandler` (lines 1028-1035). -/
def writeDeviceLabel (uid : UID) (label : String)
    (s : uid_resolution_state) : uid_resolution_state :=
  match lookupUID s.resolved_uids uid with
  | some e =>
      { s with resolved_uids :=
          insertUID s.resolved_uids uid ({ e with device := label }) }
  | none => s

/-- `RDMHttpModule::UpdateUIDManufacturerLabel` (lines 515-532): the
continuation of a manufacturer-label resolution request; writes the label
on success and unconditionally advances the queue. -/
def UpdateUIDManufacturerLabel (send : UID → uid_resolve_action → Bool)
    (uid : UID) (status : ResponseStatus) (label : String)
    (s : uid_resolution_state) : uid_resolution_state × Bool :=
  ResolveNextUID send
    (if CheckForRDMSuccess status then writeManufacturerLabel uid label s
     else s)

/-- `RDMHttpModule::UpdateUIDDeviceLabel` (lines 538-555). -/
def UpdateUIDDeviceLabel (send : UID → uid_resolve_action → Bool)
    (uid : UID) (status : ResponseStatus) (label : String)
    (s : uid_resolution_state) : uid_resolution_state × Bool :=
  ResolveNextUID send
    (if CheckForRDMSuccess status then writeDeviceLabel uid label s else s)

/-- Ghost count contributed by a send verdict. -/
def issuedCount (issued : Bool) : Nat := if issued then 1 else 0

/-- Reachable configurations of one universe's resolution engine under
the prune-free operation set, paired with a ghost count of the
label-resolution requests currently in flight for that universe.  The
engine starts fresh (`GetUniverseUidsOrCreate`); each UID-membership
report runs `HandleUIDList`; a completion continuation — which only
arrives while a request is outstanding — runs
`UpdateUIDManufacturerLabel` or `UpdateUIDDeviceLabel`, retiring the
completed request; the section read chains may also write cached labels
(`GetManufacturerLabelHandler`, `GetDeviceLabelHandler`) without touching
the queue or the flag.  Every handler runs atomically on the single
event loop (spec §5).  Deliberately absent is the prune sweep
(`PruneUniverseList`, lines 349-373), which destroys the state object
outright: this relation is the fragment of `ReachablePrune` below in
which the universe's map entry is never destroyed, and it is the model
of the prune-free single-flight statement (the full relation refutes the
unconditional one — see the claim C1 counterexample). -/
inductive Reachable (send : UID → uid_resolve_action → Bool) :
    uid_resolution_state → Nat → Prop
  | init : Reachable send initialUidState 0
  | handle (uids : List UID) (err : String) (s : uid_resolution_state)
      (n : Nat) : Reachable send s n →
      Reachable send (HandleUIDList send uids err s).1
        (n + issuedCount (HandleUIDList send uids err s).2)
  | completeManufacturer (uid : UID) (status : ResponseStatus)
      (label : String) (s : uid_resolution_state) (n : Nat) :
      Reachable send s n → 1 ≤ n →
      Reachable send (UpdateUIDManufacturerLabel send uid status label s).1
        (n - 1 +
          issuedCount (UpdateUIDManufacturerLabel send uid status label s).2)
  | completeDevice (uid : UID) (status : ResponseStatus) (label : String)
      (s : uid_resolution_state) (n : Nat) :
      Reachable send s n → 1 ≤ n →
      Reachable send (UpdateUIDDeviceLabel send uid status label s).1
        (n - 1 + issuedCount (UpdateUIDDeviceLabel send uid status label s).2)
  | sectionManufacturerWrite (uid : UID) (label : String)
      (s : uid_resolution_state) (n : Nat) : Reachable send s n →
      Reachable send (writeManufacturerLabel uid label s) n
  | sectionDeviceWrite (uid : UID) (label : String)
      (s : uid_resolution_state) (n : Nat) : Reachable send s n →
      Reachable send (writeDeviceLabel uid label s) n

/-- The pending-queue entries that belong to a given UID. -/
def pendingFor (q : List (UID × uid_resolve_action)) (u : UID) :
    List (UID × uid_resolve_action) :=
  q.filter (fun p => decide (p.1 = u))

/-- The per-universe effect of `RDMHttpModule::PruneUniverseList`
(lines 349-373) on this universe's entry of `m_universe_uids`: the sweep
marks every tracked universe inactive, re-marks those present in the
reported active-universe list, and deletes any state left inactive —
without checking `uid_resolution_running` or the pending queue, and
without cancelling a request in flight (there is no cancellation
primitive, spec §5).  `isActive` says whether this universe's id appears
in the reported list; `none` is a destroyed (or never created) entry. -/
def pruneUniverse (isActive : Bool) (entry : Option uid_resolution_state) :
    Option uid_resolution_state :=
  match entry with
  | none => none
  | some s => if isActive then some { s with active := true } else none

/-- `RDMHttpModule::HandleUIDList` at the level of the universe's map
entry: after the error check the handler calls `GetUniverseUidsOrCreate`
(line 391), so a destroyed or never-created entry is recreated as
`initialUidState` — with the flag down — before the update and the
resolution kick run.  On the error branch the entry is left untouched
(not created). -/
def HandleUIDListEntry (send : UID → uid_resolve_action → Bool)
    (uids : List UID) (err : String)
    (entry : Option uid_resolution_state) :
    Option uid_resolution_state × Bool :=
  if err ≠ "" then (entry, false)
  else
    ((HandleUIDList send uids err (entry.getD initialUidState)).1,
     (HandleUIDList send uids err (entry.getD initialUidState)).2)

/-- `RDMHttpModule::UpdateUIDManufacturerLabel` at the map-entry level:
`GetUniverseUids` (line 520) returns null for a destroyed universe and
the continuation then returns without touching state or calling
`ResolveNextUID`; the completed request is retired either way (the
ghost accounting lives in `ReachablePrune`). -/
def UpdateUIDManufacturerLabelEntry (send : UID → uid_resolve_action → Bool)
    (uid : UID) (status : ResponseStatus) (label : String)
    (entry : Option uid_resolution_state) :
    Option uid_resolution_state × Bool :=
  match entry with
  | none => (none, false)
  | some s =>
      ((UpdateUIDManufacturerLabel send uid status label s).1,
       (UpdateUIDManufacturerLabel send uid status label s).2)

/-- `RDMHttpModule::UpdateUIDDeviceLabel` at the map-entry level, with
the same `GetUniverseUids` null guard (line 543). -/
def UpdateUIDDeviceLabelEntry (send : UID → uid_resolve_action → Bool)
    (uid : UID) (status : ResponseStatus) (label : String)
    (entry : Option uid_resolution_state) :
    Option uid_resolution_state × Bool :=
  match entry with
  | none => (none, false)
  | some s =>
      ((UpdateUIDDeviceLabel send uid status label s).1,
       (UpdateUIDDeviceLabel send uid status label s).2)

/-- Reachable configurations of one universe's map entry under the full
operation set, `PruneUniverseList` included, with the ghost count of the
label-resolution requests in flight for this universe id.  Destroying
the entry cancels nothing: an in-flight request's continuation is bound
to the universe id (lines 485-488), so it retires its request and acts
on whatever entry that id has when it fires — the section-chain cache
writes carry the same null guard (`Option.map`).  Under this relation
the unconditional single-flight invariant fails: prune can destroy a
state whose request is still outstanding, and the next membership report
recreates the entry with the flag down and issues a second, overlapping
request. -/
inductive ReachablePrune (send : UID → uid_resolve_action → Bool) :
    Option uid_resolution_state → Nat → Prop
  | start : ReachablePrune send none 0
  | handle (uids : List UID) (err : String)
      (entry : Option uid_resolution_state) (n : Nat) :
      ReachablePrune send entry n →
      ReachablePrune send (HandleUIDListEntry send uids err entry).1
        (n + issuedCount (HandleUIDListEntry send uids err entry).2)
  | completeManufacturer (uid : UID) (status : ResponseStatus)
      (label : String) (entry : Option uid_resolution_state) (n : Nat) :
      ReachablePrune send entry n → 1 ≤ n →
      ReachablePrune send
        (UpdateUIDManufacturerLabelEntry send uid status label entry).1
        (n - 1 + issuedCount
          (UpdateUIDManufacturerLabelEntry send uid status label entry).2)
  | completeDevice (uid : UID) (status : ResponseStatus) (label : String)
      (entry : Option uid_resolution_state) (n : Nat) :
      ReachablePrune send entry n → 1 ≤ n →
      ReachablePrune send
        (UpdateUIDDeviceLabelEntry send uid status label entry).1
        (n - 1 + issuedCount
          (UpdateUIDDeviceLabelEntry send uid status label entry).2)
  | sectionManufacturerWrite (uid : UID) (label : String)
      (entry : Option uid_resolution_state) (n : Nat) :
      ReachablePrune send entry n →
      ReachablePrune send (entry.map (writeManufacturerLabel uid label)) n
  | sectionDeviceWrite (uid : UID) (label : String)
      (entry : Option uid_resolution_state) (n : Nat) :
      ReachablePrune send entry n →
      ReachablePrune send (entry.map (writeDeviceLabel uid label)) n
  | prune (isActive : Bool) (entry : Option uid_resolution_state)
      (n : Nat) : ReachablePrune send entry n →
      ReachablePrune send (pruneUniverse isActive entry) n

/-! ## Sensor read chain (lines 1296-1420) -/

/-- Modelled from the spec: `SENSOR_RECORDED_VALUE` from the RDM headers
(outside src/), a non-zero bit of the recorded-value-support bitmask.
Note the source tests it with logical AND (line 1391), so only its being
non-zero matters there. -/
def SENSOR_RECORDED_VALUE : Nat := 1

/-- Modelled from the spec: `SENSOR_RECORDED_RANGE_VALUES` from the RDM
headers (outside src/), the other non-zero support bit, also combined with
logical AND on line 1400. -/
def SENSOR_RECORDED_RANGE_VALUES : Nat := 2

/-- Modelled from the spec: `SensorTypeToString` from the RDM helper
library (outside src/); only the fact that it renders some text matters to
the claims. -/
def SensorTypeToString (t : Nat) : String := toString t

/-- Modelled from the spec: `PrefixToString` from the RDM helper library
(outside src/). -/
def PrefixToString (p : Nat) : String := toString p

/-- Modelled from the spec: `UnitToString` from the RDM helper library
(outside src/). -/
def UnitToString (u : Nat) : String := toString u

/-- The `record` url-parameter key (line 73). -/
def RECORD_SENSOR_FIELD : String := "record"

/-- The slice of `ola::rdm::SensorDescriptor` the sensor rendering reads.
The field the source calls `prefix` is named `prefixCode` here (`prefix`
is a Lean keyword). -/
structure SensorDescriptor where
  type : Nat
  unit : Nat
  prefixCode : Nat
  range_min : Int
  range_max : Int
  normal_min : Int
  normal_max : Int
  recorded_value_support : Nat
  description : String
deriving DecidableEq

/-- The slice of `ola::rdm::SensorValueDescriptor` the rendering reads. -/
structure SensorValueDescriptor where
  present_value : Int
  lowest : Int
  highest : Int
  recorded : Int
deriving DecidableEq

/-- `RDMHttpModule::SensorDefinitionHandler` (lines 1329-1355): the
definition argument handed to the sensor-value fetch — a copy of the
descriptor when the definition fetch succeeded, null (`none`) otherwise.
The value fetch itself is issued unconditionally in both cases, which is
the first half of the sensor-chain contract. -/
def SensorDefinitionHandler (status : ResponseStatus)
    (definition : SensorDescriptor) : Option SensorDescriptor :=
  if CheckForRDMSuccess status then some definition else none

/-- Observable outcome of `RDMHttpModule::SensorValueHandler`: the error
response of `CheckForRDMError`, or the rendered section as its list of
(item name, item value) pairs (the hidden record item appears under the
`record` key).  `none` marks the run that dereferences the null
definition pointer — undefined behavior in the source. -/
inductive SensorValueResult
  | errorResponse (err : String)
  | sectionResponse (items : List (String × String))
deriving DecidableEq

/-- `RDMHttpModule::SensorValueHandler` (lines 1361-1420), with the null
dereference made explicit.  On a failed value fetch it responds with the
classified error (lines 1366-1370).  Otherwise the definition-derived
items — description, type, range, normal range and, when the support
bitfield is non-zero, the recorded and min/max items — are guarded by
`if (definition)` (lines 1374-1407); but the Present Value line
(lines 1409-1411) reads `definition->prefix` and `definition->unit`
without any guard, so a null definition is dereferenced: that run is
`none`. -/
def SensorValueHandler (definition : Option SensorDescriptor)
    (status : ResponseStatus) (value : SensorValueDescriptor) :
    Option SensorValueResult :=
  if (CheckForRDMSuccessWithError status).1 = false then
    some (SensorValueResult.errorResponse
      ((CheckForRDMSuccessWithError status).2.getD ""))
  else
    let defItems : List (String × String) :=
      match definition with
      | none => []
      | some d =>
          [("Description", d.description),
           ("Type", SensorTypeToString d.type),
           ("Range", toString d.range_min ++ " - " ++ toString d.range_max
              ++ " " ++ PrefixToString d.prefixCode ++ " "
              ++ UnitToString d.unit),
           ("Normal Range", toString d.normal_min ++ " - "
              ++ toString d.normal_max ++ " " ++ PrefixToString d.prefixCode
              ++ " " ++ UnitToString d.unit)]
          ++ (if d.recorded_value_support ≠ 0 ∧ SENSOR_RECORDED_VALUE ≠ 0 then
               [("Recorded Value", toString value.recorded ++ " "
                  ++ PrefixToString d.prefixCode ++ " "
                  ++ UnitToString d.unit)]
             else [])
          ++ (if d.recorded_value_support ≠ 0 ∧
                SENSOR_RECORDED_RANGE_VALUES ≠ 0 then
               [("Min / Max Recorded Values", toString value.lowest ++ " - "
                  ++ toString value.highest ++ " "
                  ++ PrefixToString d.prefixCode ++ " "
                  ++ UnitToString d.unit)]
             else [])
    match definition with
    | none => none
    | some d =>
        let presentStr := toString value.present_value ++ " "
          ++ PrefixToString d.prefixCode ++ " " ++ UnitToString d.unit
        some (SensorValueResult.sectionResponse
          (defItems ++ [("Present Value", presentStr)]
            ++ (if d.recorded_value_support ≠ 0 then
                 [(RECORD_SENSOR_FIELD, presentStr)]
               else [])))

/-! ## Claims C6 and C7 -/

/-- Claim C7: the classifier maps every low-level exchange outcome to
exactly one of the five classifications — each response type pairs with the
single outcome tag of matching index — and the boolean collapse of
`CheckForRDMSuccessWithError` treats the valid response, and only it, as
success. -/
theorem c7_classifier_collapse :
    ∀ status : ResponseStatus,
      (CheckForRDMSuccessWithError status).1 =
        decide (status.response_type = ResponseType.VALID_RESPONSE)
      ∧ outcomeIndex (classifyOutcome status) = typeIndex status.response_type := by
  intro status
  cases h : status.response_type <;>
    simp [CheckForRDMSuccessWithError, classifyOutcome, outcomeIndex, typeIndex, h]

/-- Claim C6, counterexample: the claim says every value outside
`[0, 512)` fails validation with no network request; but the source only
checks that the value parses as a 16-bit unsigned integer, so for the
address "512" — outside `[0, DMX_UNIVERSE_SIZE)` — it issues the
set-request instead of failing validation. -/
theorem c6_counterexample :
    SetStartAddress "512" = SetStartAddressResult.requestIssued 512
    ∧ ¬ (512 < DMX_UNIVERSE_SIZE) := by
  refine ⟨?_, by decide⟩
  rfl

/-- Claim C6 as amended: the write to the start-address section validates
only that the supplied value parses as a decimal 16-bit unsigned integer;
every value failing that parse (non-numeric, empty, or at least 2^16)
yields the validation error "Invalid start address" with no network
request, and every value that parses — necessarily below 2^16, but not
necessarily below 512 — has the set-request issued with the parsed
address. -/
theorem c6_validation_is_uint16_parse :
    ∀ s : String,
      (StringToUInt16 s = none →
        SetStartAddress s =
          SetStartAddressResult.validationError "Invalid start address")
      ∧ (∀ n : Nat, StringToUInt16 s = some n →
        SetStartAddress s = SetStartAddressResult.requestIssued n ∧ n < 65536) := by
  intro s
  constructor
  · intro h
    simp [SetStartAddress, h]
  · intro n h
    refine ⟨by simp [SetStartAddress, h], ?_⟩
    have hs : StringToUInt16 s = some n := h
    unfold StringToUInt16 at hs
    by_cases hc : s.toList ≠ [] ∧ s.toList.all Char.isDigit ∧ decimalValue s < 65536
    · rw [if_pos hc] at hs
      have h1 := Option.some.inj hs
      have h2 := hc.2.2
      omega
    · rw [if_neg hc] at hs
      exact absurd hs (by simp)

/-- Claim C6 amended, witness: the spec's own scenario value "70000" fails
the 16-bit parse, so the write fails with the validation error and no
request is issued. -/
theorem c6_validation_is_uint16_parse_witness :
    SetStartAddress "70000" =
      SetStartAddressResult.validationError "Invalid start address" :=
  (c6_validation_is_uint16_parse "70000").1 (by decide)

/-! ## Discovery lemmas and claims C4, C9, C10 -/

theorem sectionsWithId_append (a b : List section_info) (x : String) :
    sectionsWithId (a ++ b) x = sectionsWithId a x ++ sectionsWithId b x := by
  simp [sectionsWithId]

theorem sectionsWithId_singleton_ne (s : section_info) (x : String)
    (h : s.id ≠ x) : sectionsWithId [s] x = [] := by
  simp [sectionsWithId, h]

theorem sectionsWithId_ite (c : Prop) [Decidable c]
    (a b : List section_info) (x : String) :
    sectionsWithId (if c then a else b) x =
      if c then sectionsWithId a x else sectionsWithId b x := by
  split <;> rfl

theorem scanStep_sectionsWithId (x : String)
    (h1 : x ≠ MANUFACTURER_LABEL_SECTION) (h2 : x ≠ DEVICE_LABEL_SECTION)
    (h3 : x ≠ LANGUAGE_SECTION) (h4 : x ≠ DMX_ADDRESS_SECTION)
    (h5 : x ≠ DEVICE_HOURS_SECTION) (h6 : x ≠ PRODUCT_DETAIL_SECTION)
    (acc : List section_info × Bool × Bool) (pid : Nat) :
    sectionsWithId (scanStep acc pid).1 x = sectionsWithId acc.1 x := by
  unfold scanStep
  split_ifs <;>
    simp [sectionsWithId_append, sectionsWithId_singleton_ne, Ne.symm h1,
      Ne.symm h2, Ne.symm h3, Ne.symm h4, Ne.symm h5, Ne.symm h6,
      sectionsWithId]

theorem foldl_scanStep_sectionsWithId (x : String)
    (h1 : x ≠ MANUFACTURER_LABEL_SECTION) (h2 : x ≠ DEVICE_LABEL_SECTION)
    (h3 : x ≠ LANGUAGE_SECTION) (h4 : x ≠ DMX_ADDRESS_SECTION)
    (h5 : x ≠ DEVICE_HOURS_SECTION) (h6 : x ≠ PRODUCT_DETAIL_SECTION)
    (l : List Nat) :
    ∀ acc : List section_info × Bool × Bool,
      sectionsWithId (l.foldl scanStep acc).1 x = sectionsWithId acc.1 x := by
  induction l with
  | nil => intro acc; rfl
  | cons p l ih =>
      intro acc
      rw [List.foldl_cons, ih (scanStep acc p),
        scanStep_sectionsWithId x h1 h2 h3 h4 h5 h6]

theorem sectionsWithId_sensorSections_ne (n : Nat) (x : String)
    (h : x ≠ SENSOR_SECTION) : sectionsWithId (sensorSections n) x = [] := by
  unfold sectionsWithId sensorSections
  refine List.filter_eq_nil_iff.mpr ?_
  intro a ha
  simp only [List.mem_map, List.mem_range] at ha
  obtain ⟨i, _, rfl⟩ := ha
  simp [Ne.symm h]

theorem sectionsWithId_sensorSections_self (n : Nat) :
    sectionsWithId (sensorSections n) SENSOR_SECTION = sensorSections n := by
  unfold sectionsWithId
  refine List.filter_eq_self.mpr ?_
  intro a ha
  simp only [sensorSections, List.mem_map, List.mem_range] at ha
  obtain ⟨i, _, rfl⟩ := ha
  simp

theorem discovery_sectionsWithId_eq_base (pid_list : List Nat)
    (status : ResponseStatus) (device : DeviceDescriptor) (x : String)
    (h1 : x ≠ MANUFACTURER_LABEL_SECTION) (h2 : x ≠ DEVICE_LABEL_SECTION)
    (h3 : x ≠ LANGUAGE_SECTION) (h4 : x ≠ DMX_ADDRESS_SECTION)
    (h5 : x ≠ DEVICE_HOURS_SECTION) (h6 : x ≠ PRODUCT_DETAIL_SECTION)
    (h7 : x ≠ BOOT_SOFTWARE_SECTION) (h8 : x ≠ SENSOR_SECTION) :
    sectionsWithId (SupportedSectionsDeviceInfoHandler pid_list status device) x
      = sectionsWithId (discoveryBase pid_list) x := by
  have hscan : sectionsWithId (discoveryScan pid_list).1 x
      = sectionsWithId (discoveryBase pid_list) x :=
    foldl_scanStep_sectionsWithId x h1 h2 h3 h4 h5 h6 pid_list _
  have hboot : sectionsWithId
      [({ id := BOOT_SOFTWARE_SECTION, name := "Boot Software Version",
          hint := "" } : section_info)] x = [] :=
    sectionsWithId_singleton_ne _ x (Ne.symm h7)
  have hdmx : sectionsWithId
      [({ id := DMX_ADDRESS_SECTION, name := "DMX Start Address",
          hint := "" } : section_info)] x = [] :=
    sectionsWithId_singleton_ne _ x (Ne.symm h4)
  have hsens := sectionsWithId_sensorSections_ne device.sensor_count x h8
  unfold SupportedSectionsDeviceInfoHandler
  simp [sectionsWithId_ite, sectionsWithId_append, hboot, hdmx, hsens, hscan]

/-- Claim C4, code-bug evidence: scanning a supported list containing the
lamp-hours identifier adds a section whose id is `device_hours` (displayed
as "Lamp Hours") and no section with the lamp-hours section id at all, so
the scan does not map the lamp-hours identifier to the lamp-hours section
the claim lists (the `PID_LAMP_HOURS` arm on line 701 passes
`DEVICE_HOURS_SECTION` where the surrounding code's own
`LAMP_HOURS_SECTION` constant and `GetLampHours`/`SetLampHours` handlers
show the intent). -/
theorem c4_lamp_hours_section_id :
    SupportedSectionsDeviceInfoHandler [PID_LAMP_HOURS]
        ⟨ResponseType.VALID_RESPONSE, "", 0⟩ ⟨0, 0⟩ =
      [⟨DEVICE_INFO_SECTION, "Device Info", ""⟩,
       ⟨IDENTIFY_SECTION, "Identify Mode", ""⟩,
       ⟨DEVICE_HOURS_SECTION, "Lamp Hours", ""⟩]
    ∧ sectionsWithId
        (SupportedSectionsDeviceInfoHandler [PID_LAMP_HOURS]
          ⟨ResponseType.VALID_RESPONSE, "", 0⟩ ⟨0, 0⟩) LAMP_HOURS_SECTION
      = [] := by
  constructor <;> rfl

/-- Claim C9: when the device-info fetch succeeded and both sensor pids are
in the supported list, the discovery result's sensor sections are exactly
one per index 0..N-1 for the descriptor's N sensors, each with hint
`toString i` and label `"Sensor " ++ toString (i+1)`. -/
theorem c9_sensor_sections :
    ∀ (pid_list : List Nat) (status : ResponseStatus)
      (device : DeviceDescriptor),
      CheckForRDMSuccess status = true →
      PID_SENSOR_DEFINITION ∈ pid_list →
      PID_SENSOR_VALUE ∈ pid_list →
      sectionsWithId
          (SupportedSectionsDeviceInfoHandler pid_list status device)
          SENSOR_SECTION
        = sensorSections device.sensor_count := by
  intro pid_list status device hok hdef hval
  have hscan : sectionsWithId (discoveryScan pid_list).1 SENSOR_SECTION
      = sectionsWithId (discoveryBase pid_list) SENSOR_SECTION :=
    foldl_scanStep_sectionsWithId SENSOR_SECTION (by decide) (by decide)
      (by decide) (by decide) (by decide) (by decide) pid_list _
  have hbase : sectionsWithId (discoveryBase pid_list) SENSOR_SECTION = [] := by
    rfl
  have hboot : sectionsWithId
      [({ id := BOOT_SOFTWARE_SECTION, name := "Boot Software Version",
          hint := "" } : section_info)] SENSOR_SECTION = [] :=
    sectionsWithId_singleton_ne _ _ (by decide)
  have hdmx : sectionsWithId
      [({ id := DMX_ADDRESS_SECTION, name := "DMX Start Address",
          hint := "" } : section_info)] SENSOR_SECTION = [] :=
    sectionsWithId_singleton_ne _ _ (by decide)
  by_cases hn : device.sensor_count = 0
  · unfold SupportedSectionsDeviceInfoHandler
    simp [sectionsWithId_ite, sectionsWithId_append, hboot, hdmx, hscan,
      hbase, hok, hn, sensorSections]
  · unfold SupportedSectionsDeviceInfoHandler
    simp [sectionsWithId_ite, sectionsWithId_append, hboot, hdmx, hscan,
      hbase, hok, hn, hdef, hval, sectionsWithId_sensorSections_self]

/-- Claim C9, witness: a device reporting two sensors with both sensor pids
supported yields exactly the two sensor sections with hints "0", "1" and
labels "Sensor 1", "Sensor 2". -/
theorem c9_sensor_sections_witness :
    sectionsWithId
        (SupportedSectionsDeviceInfoHandler [512, 513]
          ⟨ResponseType.VALID_RESPONSE, "", 0⟩ ⟨0, 2⟩) SENSOR_SECTION
      = sensorSections 2 :=
  c9_sensor_sections [512, 513] ⟨ResponseType.VALID_RESPONSE, "", 0⟩ ⟨0, 2⟩
    (by decide) (by decide) (by decide)

/-- Claim C10: in every discovery result the identify-mode section carries
the same hint string as the device-info section, and when the
model-description pid is in the supported list that shared hint is the
non-empty flag "m". -/
theorem c10_identify_hint :
    ∀ (pid_list : List Nat) (status : ResponseStatus)
      (device : DeviceDescriptor) (s t : section_info),
      s ∈ SupportedSectionsDeviceInfoHandler pid_list status device →
      t ∈ SupportedSectionsDeviceInfoHandler pid_list status device →
      s.id = DEVICE_INFO_SECTION → t.id = IDENTIFY_SECTION →
      s.hint = t.hint ∧
        (PID_DEVICE_MODEL_DESCRIPTION ∈ pid_list → t.hint = "m") := by
  intro pid_list status device s t hs ht hsid htid
  have hdev : sectionsWithId
      (SupportedSectionsDeviceInfoHandler pid_list status device)
      DEVICE_INFO_SECTION
      = [⟨DEVICE_INFO_SECTION, "Device Info",
          if PID_DEVICE_MODEL_DESCRIPTION ∈ pid_list then "m" else ""⟩] := by
    rw [discovery_sectionsWithId_eq_base pid_list status device
      DEVICE_INFO_SECTION (by decide) (by decide) (by decide) (by decide)
      (by decide) (by decide) (by decide) (by decide)]
    rfl
  have hide : sectionsWithId
      (SupportedSectionsDeviceInfoHandler pid_list status device)
      IDENTIFY_SECTION
      = [⟨IDENTIFY_SECTION, "Identify Mode",
          if PID_DEVICE_MODEL_DESCRIPTION ∈ pid_list then "m" else ""⟩] := by
    rw [discovery_sectionsWithId_eq_base pid_list status device
      IDENTIFY_SECTION (by decide) (by decide) (by decide) (by decide)
      (by decide) (by decide) (by decide) (by decide)]
    rfl
  have hsmem : s ∈ sectionsWithId
      (SupportedSectionsDeviceInfoHandler pid_list status device)
      DEVICE_INFO_SECTION :=
    List.mem_filter.mpr ⟨hs, by simp [hsid]⟩
  have htmem : t ∈ sectionsWithId
      (SupportedSectionsDeviceInfoHandler pid_list status device)
      IDENTIFY_SECTION :=
    List.mem_filter.mpr ⟨ht, by simp [htid]⟩
  rw [hdev] at hsmem
  rw [hide] at htmem
  simp only [List.mem_singleton] at hsmem htmem
  subst hsmem
  subst htmem
  refine ⟨rfl, ?_⟩
  intro hm
  simp [hm]

/-- Claim C10, witness: with the model-description pid supported, both core
sections carry the hint "m". -/
theorem c10_identify_hint_witness :
    section_info.hint ⟨DEVICE_INFO_SECTION, "Device Info", "m"⟩ =
      section_info.hint ⟨IDENTIFY_SECTION, "Identify Mode", "m"⟩ :=
  (c10_identify_hint [128] ⟨ResponseType.VALID_RESPONSE, "", 0⟩ ⟨0, 0⟩
      ⟨DEVICE_INFO_SECTION, "Device Info", "m"⟩
      ⟨IDENTIFY_SECTION, "Identify Mode", "m"⟩
      (by decide) (by decide) rfl rfl).1

/-! ## Resolution-loop lemmas and claims C8 and C1 -/

theorem resolveFrom_not_issued (send : UID → uid_resolve_action → Bool) :
    ∀ q : List (UID × uid_resolve_action),
      (resolveFrom send q).2 = false →
      (resolveFrom send q).1 = [] ∧
        q.all (fun p => !send p.1 p.2) = true := by
  intro q
  induction q with
  | nil => intro; exact ⟨rfl, rfl⟩
  | cons p rest ih =>
      intro h
      obtain ⟨u, act⟩ := p
      by_cases hs : send u act = true
      · rw [resolveFrom, if_pos hs] at h
        cases h
      · rw [resolveFrom, if_neg hs] at h ⊢
        refine ⟨(ih h).1, ?_⟩
        simp only [List.all_cons, Bool.and_eq_true]
        exact ⟨by simpa using hs, (ih h).2⟩

theorem resolveFrom_suffix (send : UID → uid_resolve_action → Bool) :
    ∀ q : List (UID × uid_resolve_action),
      List.IsSuffix (resolveFrom send q).1 q := by
  intro q
  induction q with
  | nil => exact List.suffix_refl []
  | cons p rest ih =>
      obtain ⟨u, act⟩ := p
      by_cases hs : send u act = true
      · rw [resolveFrom, if_pos hs]
        exact List.suffix_cons (u, act) rest
      · rw [resolveFrom, if_neg hs]
        exact ih.trans (List.suffix_cons (u, act) rest)

theorem resolveFrom_issued_length (send : UID → uid_resolve_action → Bool) :
    ∀ q : List (UID × uid_resolve_action),
      (resolveFrom send q).2 = true →
      (resolveFrom send q).1.length < q.length := by
  intro q
  induction q with
  | nil => intro h; cases h
  | cons p rest ih =>
      intro h
      obtain ⟨u, act⟩ := p
      by_cases hs : send u act = true
      · rw [resolveFrom, if_pos hs]
        simp
      · rw [resolveFrom, if_neg hs] at h ⊢
        exact Nat.lt_trans (ih h) (by simp)

theorem ResolveNextUID_running (send : UID → uid_resolve_action → Bool)
    (s : uid_resolution_state) :
    (ResolveNextUID send s).1.uid_resolution_running =
      (ResolveNextUID send s).2 := by
  unfold ResolveNextUID
  by_cases h : (resolveFrom send s.pending_uids).2 = true <;> simp [h]

theorem ResolveNextUID_not_issued (send : UID → uid_resolve_action → Bool)
    (s : uid_resolution_state) (h : (ResolveNextUID send s).2 = false) :
    (ResolveNextUID send s).1.pending_uids = [] := by
  unfold ResolveNextUID at h ⊢
  by_cases hr : (resolveFrom send s.pending_uids).2 = true
  · rw [if_pos hr] at h
    cases h
  · rw [if_neg hr]
    simp only
    exact (resolveFrom_not_issued send s.pending_uids (by simpa using hr)).1

/-- Claim C8: every call of `ResolveNextUID` makes forward progress and
terminates — the remaining queue is always a suffix of the old one (each
entry receives at most one attempt and none is re-enqueued), and the call
either issues exactly one request, raising the flag and consuming at
least one entry, or — only after every remaining entry was attempted and
rejected synchronously — empties the queue and clears the flag. -/
theorem c8_resolve_forward_progress :
    ∀ (send : UID → uid_resolve_action → Bool) (s : uid_resolution_state),
      List.IsSuffix (ResolveNextUID send s).1.pending_uids s.pending_uids
      ∧ (((ResolveNextUID send s).2 = true
          ∧ (ResolveNextUID send s).1.uid_resolution_running = true
          ∧ (ResolveNextUID send s).1.pending_uids.length
              < s.pending_uids.length)
        ∨ ((ResolveNextUID send s).2 = false
          ∧ (ResolveNextUID send s).1.uid_resolution_running = false
          ∧ (ResolveNextUID send s).1.pending_uids = []
          ∧ s.pending_uids.all (fun p => !send p.1 p.2) = true)) := by
  intro send s
  constructor
  · unfold ResolveNextUID
    by_cases h : (resolveFrom send s.pending_uids).2 = true <;>
      simpa [h] using resolveFrom_suffix send s.pending_uids
  · by_cases h : (ResolveNextUID send s).2 = true
    · refine Or.inl ⟨h, by rw [ResolveNextUID_running, h], ?_⟩
      have hr : (resolveFrom send s.pending_uids).2 = true := by
        unfold ResolveNextUID at h
        by_cases hb : (resolveFrom send s.pending_uids).2 = true
        · exact hb
        · rw [if_neg hb] at h
          cases h
      unfold ResolveNextUID
      rw [if_pos hr]
      exact resolveFrom_issued_length send s.pending_uids hr
    · have hf : (ResolveNextUID send s).2 = false := by simpa using h
      refine Or.inr ⟨hf, by rw [ResolveNextUID_running, hf],
        ResolveNextUID_not_issued send s hf, ?_⟩
      have hr : (resolveFrom send s.pending_uids).2 = false := by
        unfold ResolveNextUID at hf
        by_cases hb : (resolveFrom send s.pending_uids).2 = true
        · rw [if_pos hb] at hf
          cases hf
        · simpa using hb
      exact (resolveFrom_not_issued send s.pending_uids hr).2

theorem processUID_running (st : uid_resolution_state) (u : UID) :
    (processUID st u).uid_resolution_running = st.uid_resolution_running := by
  unfold processUID
  cases lookupUID st.resolved_uids u <;> rfl

theorem foldl_processUID_running :
    ∀ (uids : List UID) (st : uid_resolution_state),
      (uids.foldl processUID st).uid_resolution_running =
        st.uid_resolution_running := by
  intro uids
  induction uids with
  | nil => intro st; rfl
  | cons v rest ih =>
      intro st
      rw [List.foldl_cons, ih (processUID st v), processUID_running]

theorem handleUIDListUpdate_running (uids : List UID)
    (s : uid_resolution_state) :
    (handleUIDListUpdate uids s).uid_resolution_running =
      s.uid_resolution_running := by
  unfold handleUIDListUpdate
  simp only
  rw [foldl_processUID_running]

theorem writeManufacturerLabel_running (uid : UID) (label : String)
    (s : uid_resolution_state) :
    (writeManufacturerLabel uid label s).uid_resolution_running =
      s.uid_resolution_running := by
  unfold writeManufacturerLabel
  cases lookupUID s.resolved_uids uid <;> rfl

theorem writeDeviceLabel_running (uid : UID) (label : String)
    (s : uid_resolution_state) :
    (writeDeviceLabel uid label s).uid_resolution_running =
      s.uid_resolution_running := by
  unfold writeDeviceLabel
  cases lookupUID s.resolved_uids uid <;> rfl

/-- Claim C1 as amended: the single-flight invariant for every stretch of
execution in which the universe's state is not destroyed by the prune
sweep (`PruneUniverseList`).  At every configuration reachable under the
prune-free operation set the ghost in-flight count is 1 when the flag is
up and 0 when it is down — so at most one resolution request is
outstanding for the universe — and the flag moves only inside
`ResolveNextUID`: at its exit the flag equals whether the call just
issued a request (false→true happens only by issuing), and a call that
did not issue — the only way the flag turns false — leaves the queue
empty.  The unconditional form of the claim is false of the program:
prune destroys a state whose request is still in flight and the next
report recreates it with the flag down, issuing an overlapping request
(see the counterexample over `ReachablePrune`). -/
theorem c1_single_flight :
    ∀ (send : UID → uid_resolve_action → Bool) (s : uid_resolution_state)
      (n : Nat) (t : uid_resolution_state),
      Reachable send s n →
      (n = if s.uid_resolution_running then 1 else 0)
      ∧ ((ResolveNextUID send t).1.uid_resolution_running =
            (ResolveNextUID send t).2
        ∧ ((ResolveNextUID send t).2 = true
            ∨ (ResolveNextUID send t).1.pending_uids = [])) := by
  intro send s n t h
  refine ⟨?_, ResolveNextUID_running send t, ?_⟩
  · induction h with
    | init => rfl
    | handle uids err s' n' hr ih =>
        unfold HandleUIDList
        by_cases herr : err ≠ ""
        · simp only [if_pos herr, issuedCount]
          simpa using ih
        · simp only [if_neg herr]
          by_cases hrun :
              (handleUIDListUpdate uids s').uid_resolution_running = false
          · simp only [if_pos hrun]
            have hs0 : s'.uid_resolution_running = false := by
              rw [handleUIDListUpdate_running] at hrun
              exact hrun
            have hn : n' = 0 := by simp [ih, hs0]
            rw [hn, ResolveNextUID_running]
            cases hb : (ResolveNextUID send (handleUIDListUpdate uids s')).2 <;>
              simp [issuedCount, hb]
          · simp only [if_neg hrun, issuedCount]
            have hrun' : (handleUIDListUpdate uids s').uid_resolution_running
                = true := by simpa using hrun
            rw [hrun']
            have hs1 : s'.uid_resolution_running = true := by
              rw [handleUIDListUpdate_running] at hrun'
              exact hrun'
            simp [ih, hs1]
    | completeManufacturer uid status label s' n' hr hn ih =>
        have hn1 : n' = 1 := by
          by_cases hb : s'.uid_resolution_running = true
          · rw [ih, if_pos hb]
          · rw [ih, if_neg hb] at hn
            cases hn
        unfold UpdateUIDManufacturerLabel
        rw [ResolveNextUID_running, hn1]
        cases hb : (ResolveNextUID send
            (if CheckForRDMSuccess status then
              writeManufacturerLabel uid label s' else s')).2 <;>
          simp [issuedCount, hb]
    | completeDevice uid status label s' n' hr hn ih =>
        have hn1 : n' = 1 := by
          by_cases hb : s'.uid_resolution_running = true
          · rw [ih, if_pos hb]
          · rw [ih, if_neg hb] at hn
            cases hn
        unfold UpdateUIDDeviceLabel
        rw [ResolveNextUID_running, hn1]
        cases hb : (ResolveNextUID send
            (if CheckForRDMSuccess status then
              writeDeviceLabel uid label s' else s')).2 <;>
          simp [issuedCount, hb]
    | sectionManufacturerWrite uid label s' n' hr ih =>
        rw [ih, writeManufacturerLabel_running]
    | sectionDeviceWrite uid label s' n' hr ih =>
        rw [ih, writeDeviceLabel_running]
  · by_cases hb : (ResolveNextUID send t).2 = true
    · exact Or.inl hb
    · exact Or.inr (ResolveNextUID_not_issued send t (by simpa using hb))

/-- Claim C1, witness: the fresh engine state is reachable with zero
outstanding requests and the flag down, and a `ResolveNextUID` call on the
fresh state behaves as the flag-transition clauses state. -/
theorem c1_single_flight_witness :
    ((0 : Nat) = if initialUidState.uid_resolution_running then 1 else 0)
    ∧ (((ResolveNextUID (fun _ _ => true) initialUidState).1.uid_resolution_running
          = (ResolveNextUID (fun _ _ => true) initialUidState).2)
      ∧ ((ResolveNextUID (fun _ _ => true) initialUidState).2 = true
          ∨ (ResolveNextUID (fun _ _ => true)
              initialUidState).1.pending_uids = [])) :=
  c1_single_flight (fun _ _ => true) initialUidState 0 initialUidState
    Reachable.init

/-! ## Resolved-map lemmas -/

theorem lookup_insert_self (l : List (UID × resolved_uid)) (u : UID)
    (v : resolved_uid) : lookupUID (insertUID l u v) u = some v := by
  induction l with
  | nil => simp [insertUID, lookupUID]
  | cons p rest ih =>
      obtain ⟨k, w⟩ := p
      by_cases hk : k = u <;> simp [insertUID, lookupUID, hk, ih]

theorem lookup_insert_ne (l : List (UID × resolved_uid)) (u w : UID)
    (v : resolved_uid) (h : w ≠ u) :
    lookupUID (insertUID l u v) w = lookupUID l w := by
  induction l with
  | nil => simp [insertUID, lookupUID, Ne.symm h]
  | cons p rest ih =>
      obtain ⟨k, x⟩ := p
      by_cases hk : k = u
      · subst hk
        simp [insertUID, lookupUID, Ne.symm h]
      · simp [insertUID, lookupUID, hk, ih]

theorem mem_keys_insert (l : List (UID × resolved_uid)) (u w : UID)
    (v : resolved_uid) :
    w ∈ (insertUID l u v).map Prod.fst → w ∈ l.map Prod.fst ∨ w = u := by
  induction l with
  | nil =>
      intro h
      simp [insertUID] at h
      exact Or.inr h
  | cons p rest ih =>
      obtain ⟨k, x⟩ := p
      intro h
      by_cases hk : k = u
      · simp only [insertUID, if_pos hk, List.map_cons, List.mem_cons] at h
        rcases h with h | h
        · exact Or.inl (List.mem_cons.mpr (Or.inl h))
        · exact Or.inl (List.mem_cons.mpr (Or.inr h))
      · simp only [insertUID, if_neg hk, List.map_cons, List.mem_cons] at h
        rcases h with h | h
        · exact Or.inl (List.mem_cons.mpr (Or.inl h))
        · rcases ih h with h2 | h2
          · exact Or.inl (List.mem_cons.mpr (Or.inr h2))
          · exact Or.inr h2

theorem nodup_keys_insert (l : List (UID × resolved_uid)) (u : UID)
    (v : resolved_uid) (h : (l.map Prod.fst).Nodup) :
    ((insertUID l u v).map Prod.fst).Nodup := by
  induction l with
  | nil => simp [insertUID]
  | cons p rest ih =>
      obtain ⟨k, x⟩ := p
      rw [List.map_cons, List.nodup_cons] at h
      by_cases hk : k = u
      · simp only [insertUID, if_pos hk, List.map_cons, List.nodup_cons]
        exact ⟨h.1, h.2⟩
      · simp only [insertUID, if_neg hk, List.map_cons, List.nodup_cons]
        refine ⟨?_, ih h.2⟩
        intro hmem
        rcases mem_keys_insert rest u k v hmem with h2 | h2
        · exact h.1 h2
        · exact hk h2

theorem lookup_eq_none_of_not_mem (l : List (UID × resolved_uid)) (u : UID)
    (h : u ∉ l.map Prod.fst) : lookupUID l u = none := by
  induction l with
  | nil => rfl
  | cons p rest ih =>
      obtain ⟨k, x⟩ := p
      simp only [List.map_cons, List.mem_cons] at h
      push_neg at h
      simp [lookupUID, Ne.symm h.1, ih h.2]

theorem keys_markInactive (l : List (UID × resolved_uid)) :
    (markInactive l).map Prod.fst = l.map Prod.fst := by
  induction l with
  | nil => rfl
  | cons p rest ih =>
      simp only [markInactive, List.map_cons] at ih ⊢
      rw [ih]

theorem lookup_markInactive (l : List (UID × resolved_uid)) (u : UID) :
    lookupUID (markInactive l) u =
      (lookupUID l u).map (fun e => { e with active := false }) := by
  induction l with
  | nil => rfl
  | cons p rest ih =>
      obtain ⟨k, x⟩ := p
      have ihm : lookupUID (List.map
          (fun p => (p.1, { p.2 with active := false })) rest) u =
          (lookupUID rest u).map (fun e => { e with active := false }) := by
        simpa [markInactive] using ih
      by_cases hk : k = u <;> simp [markInactive, lookupUID, hk, ihm]

theorem keys_sweep_subset (l : List (UID × resolved_uid)) (w : UID) :
    w ∈ (sweepInactive l).map Prod.fst → w ∈ l.map Prod.fst := by
  intro h
  simp only [sweepInactive, List.mem_map] at h
  obtain ⟨p, hp, hw⟩ := h
  exact List.mem_map.mpr ⟨p, List.mem_of_mem_filter hp, hw⟩

theorem nodup_keys_sweep (l : List (UID × resolved_uid))
    (h : (l.map Prod.fst).Nodup) :
    ((sweepInactive l).map Prod.fst).Nodup := by
  induction l with
  | nil => simp [sweepInactive]
  | cons p rest ih =>
      rw [List.map_cons, List.nodup_cons] at h
      unfold sweepInactive at ih ⊢
      rw [List.filter_cons]
      by_cases hp : p.2.active = true
      · simp only [hp, if_true, List.map_cons, List.nodup_cons]
        refine ⟨?_, ih h.2⟩
        intro hmem
        exact h.1 (keys_sweep_subset rest p.1 hmem)
      · simp only [hp]
        simpa using ih h.2

theorem lookup_sweep (l : List (UID × resolved_uid)) (u : UID)
    (h : (l.map Prod.fst).Nodup) :
    lookupUID (sweepInactive l) u =
      (lookupUID l u).bind
        (fun e => if e.active then some e else none) := by
  induction l with
  | nil => rfl
  | cons p rest ih =>
      obtain ⟨k, x⟩ := p
      rw [List.map_cons, List.nodup_cons] at h
      by_cases hk : k = u
      · subst hk
        by_cases hx : x.active = true
        · simp [sweepInactive, List.filter_cons, hx, lookupUID]
        · have hnone : lookupUID (sweepInactive rest) k = none :=
            lookup_eq_none_of_not_mem _ _
              (fun hm => h.1 (keys_sweep_subset rest k hm))
          have hnone2 : lookupUID (List.filter (fun p => p.2.active) rest) k
              = none := hnone
          simp [sweepInactive, List.filter_cons, hx, lookupUID, hnone2]
      · have ihr := ih h.2
        simp only [sweepInactive] at ihr
        by_cases hx : x.active = true <;>
          simp [sweepInactive, List.filter_cons, hx, lookupUID, hk, ihr]

/-! ## Enqueue-phase lemmas and claims C5 and C3 -/

theorem processUID_pending (st : uid_resolution_state) (u : UID) :
    (processUID st u).pending_uids = st.pending_uids ++
      (match lookupUID st.resolved_uids u with
       | none => [(u, uid_resolve_action.RESOLVE_MANUFACTURER),
                  (u, uid_resolve_action.RESOLVE_DEVICE)]
       | some _ => []) := by
  unfold processUID
  cases h : lookupUID st.resolved_uids u <;> simp

theorem processUID_lookup_self (st : uid_resolution_state) (u : UID) :
    lookupUID (processUID st u).resolved_uids u =
      some (match lookupUID st.resolved_uids u with
            | none => { manufacturer := "", device := "", active := true }
            | some e => { e with active := true }) := by
  unfold processUID
  cases h : lookupUID st.resolved_uids u <;> simp [lookup_insert_self]

theorem processUID_lookup_ne (st : uid_resolution_state) (u w : UID)
    (h : w ≠ u) :
    lookupUID (processUID st u).resolved_uids w =
      lookupUID st.resolved_uids w := by
  unfold processUID
  cases hl : lookupUID st.resolved_uids u <;>
    simp [lookup_insert_ne _ _ _ _ h]

theorem processUID_keys_nodup (st : uid_resolution_state) (u : UID)
    (h : (st.resolved_uids.map Prod.fst).Nodup) :
    (((processUID st u).resolved_uids).map Prod.fst).Nodup := by
  unfold processUID
  cases hl : lookupUID st.resolved_uids u <;>
    exact nodup_keys_insert _ _ _ h

theorem foldl_processUID_keys_nodup :
    ∀ (uids : List UID) (st : uid_resolution_state),
      (st.resolved_uids.map Prod.fst).Nodup →
      (((uids.foldl processUID st).resolved_uids).map Prod.fst).Nodup := by
  intro uids
  induction uids with
  | nil => intro st h; exact h
  | cons v rest ih =>
      intro st h
      rw [List.foldl_cons]
      exact ih _ (processUID_keys_nodup st v h)

theorem foldl_processUID_not_mem (u : UID) :
    ∀ (uids : List UID) (st : uid_resolution_state), u ∉ uids →
      lookupUID ((uids.foldl processUID st).resolved_uids) u =
          lookupUID st.resolved_uids u
      ∧ pendingFor ((uids.foldl processUID st).pending_uids) u =
          pendingFor st.pending_uids u := by
  intro uids
  induction uids with
  | nil => intro st _; exact ⟨rfl, rfl⟩
  | cons v rest ih =>
      intro st h
      have hvu : u ≠ v := fun e => h (by rw [e]; exact List.mem_cons_self v rest)
      have h2 : u ∉ rest := fun hm => h (List.mem_cons_of_mem v hm)
      rw [List.foldl_cons]
      have hrec := ih (processUID st v) h2
      refine ⟨?_, ?_⟩
      · rw [hrec.1, processUID_lookup_ne st v u hvu]
      · rw [hrec.2, processUID_pending]
        unfold pendingFor
        rw [List.filter_append]
        have hz : (match lookupUID st.resolved_uids v with
             | none => [(v, uid_resolve_action.RESOLVE_MANUFACTURER),
                        (v, uid_resolve_action.RESOLVE_DEVICE)]
             | some _ => ([] : List (UID × uid_resolve_action))).filter
               (fun p : UID × uid_resolve_action => decide (p.1 = u)) = [] := by
          cases lookupUID st.resolved_uids v <;> simp [Ne.symm hvu]
        rw [hz, List.append_nil]

theorem foldl_processUID_mem (u : UID) :
    ∀ (uids : List UID) (st : uid_resolution_state),
      uids.Nodup → u ∈ uids →
      lookupUID ((uids.foldl processUID st).resolved_uids) u =
          some (match lookupUID st.resolved_uids u with
                | none => { manufacturer := "", device := "", active := true }
                | some e => { e with active := true })
      ∧ pendingFor ((uids.foldl processUID st).pending_uids) u =
          pendingFor st.pending_uids u ++
            (match lookupUID st.resolved_uids u with
             | none => [(u, uid_resolve_action.RESOLVE_MANUFACTURER),
                        (u, uid_resolve_action.RESOLVE_DEVICE)]
             | some _ => []) := by
  intro uids
  induction uids with
  | nil => intro st _ hm; cases hm
  | cons v rest ih =>
      intro st hnd hm
      rw [List.foldl_cons]
      rcases List.mem_cons.mp hm with he | hmem
      · subst he
        have hnm : u ∉ rest := (List.nodup_cons.mp hnd).1
        have hrec := foldl_processUID_not_mem u rest (processUID st u) hnm
        refine ⟨?_, ?_⟩
        · rw [hrec.1, processUID_lookup_self]
        · rw [hrec.2, processUID_pending]
          unfold pendingFor
          rw [List.filter_append]
          congr 1
          cases lookupUID st.resolved_uids u <;> simp
      · have hvu : u ≠ v := by
          intro e
          rw [e] at hmem
          exact (List.nodup_cons.mp hnd).1 hmem
        have hrec := ih (processUID st v) (List.nodup_cons.mp hnd).2 hmem
        refine ⟨?_, ?_⟩
        · rw [hrec.1, processUID_lookup_ne st v u hvu]
        · rw [hrec.2, processUID_lookup_ne st v u hvu, processUID_pending]
          unfold pendingFor
          rw [List.filter_append]
          have hz : (match lookupUID st.resolved_uids v with
               | none => [(v, uid_resolve_action.RESOLVE_MANUFACTURER),
                          (v, uid_resolve_action.RESOLVE_DEVICE)]
               | some _ => ([] : List (UID × uid_resolve_action))).filter
                 (fun p : UID × uid_resolve_action => decide (p.1 = u)) = [] := by
            cases lookupUID st.resolved_uids v <;> simp [Ne.symm hvu]
          rw [hz, List.append_nil]

/-- Claim C5: within one `HandleUIDList` state update, a reported UID with
no cached entry has exactly two pending entries appended for it —
manufacturer first, then device, and nothing else — while a reported UID
that is already tracked gets nothing enqueued and keeps its cached labels
(only its liveness mark is set, so it also survives the sweep). -/
theorem c5_enqueue_exactly_two :
    ∀ (uids : List UID) (s : uid_resolution_state) (u : UID),
      uids.Nodup → (s.resolved_uids.map Prod.fst).Nodup → u ∈ uids →
      (lookupUID s.resolved_uids u = none →
        pendingFor (handleUIDListUpdate uids s).pending_uids u =
          pendingFor s.pending_uids u ++
            [(u, uid_resolve_action.RESOLVE_MANUFACTURER),
             (u, uid_resolve_action.RESOLVE_DEVICE)])
      ∧ (∀ e : resolved_uid, lookupUID s.resolved_uids u = some e →
          pendingFor (handleUIDListUpdate uids s).pending_uids u =
            pendingFor s.pending_uids u
          ∧ lookupUID (handleUIDListUpdate uids s).resolved_uids u =
              some { e with active := true }) := by
  intro uids s u hnd hkeys hm
  have hfold := foldl_processUID_mem u uids
    { s with resolved_uids := markInactive s.resolved_uids } hnd hm
  constructor
  · intro hnone
    have hlook1 : lookupUID
        (markInactive s.resolved_uids) u = none := by
      rw [lookup_markInactive, hnone]
      rfl
    show pendingFor (uids.foldl processUID
      { s with resolved_uids := markInactive s.resolved_uids }).pending_uids u
        = _
    rw [hfold.2]
    have : lookupUID ({ s with
        resolved_uids := markInactive s.resolved_uids } :
          uid_resolution_state).resolved_uids u = none := hlook1
    rw [this]
  · intro e hsome
    have hlook1 : lookupUID ({ s with
        resolved_uids := markInactive s.resolved_uids } :
          uid_resolution_state).resolved_uids u =
        some ({ e with active := false }) := by
      show lookupUID (markInactive s.resolved_uids) u = _
      rw [lookup_markInactive, hsome]
      rfl
    constructor
    · show pendingFor (uids.foldl processUID
        { s with resolved_uids := markInactive s.resolved_uids }).pending_uids
          u = _
      rw [hfold.2, hlook1]
      simp
    · have hknd : (((uids.foldl processUID
          { s with resolved_uids := markInactive s.resolved_uids
          }).resolved_uids).map Prod.fst).Nodup := by
        apply foldl_processUID_keys_nodup
        show ((markInactive s.resolved_uids).map Prod.fst).Nodup
        rw [keys_markInactive]
        exact hkeys
      show lookupUID (sweepInactive (uids.foldl processUID
        { s with resolved_uids := markInactive s.resolved_uids
        }).resolved_uids) u = _
      rw [lookup_sweep _ _ hknd, hfold.1, hlook1]
      simp

/-- Claim C5, witness: reporting one fresh UID to a fresh engine appends
exactly its manufacturer action and then its device action. -/
theorem c5_enqueue_exactly_two_witness :
    pendingFor (handleUIDListUpdate [⟨1, 2⟩] initialUidState).pending_uids
        ⟨1, 2⟩ =
      pendingFor initialUidState.pending_uids ⟨1, 2⟩ ++
        [(⟨1, 2⟩, uid_resolve_action.RESOLVE_MANUFACTURER),
         (⟨1, 2⟩, uid_resolve_action.RESOLVE_DEVICE)] :=
  (c5_enqueue_exactly_two [⟨1, 2⟩] initialUidState ⟨1, 2⟩ (by decide)
    (by decide) (by decide)).1 rfl

/-- Claim C3, counterexample: the containment "every UID in the pending
queue has an entry in the resolved map" is not preserved by the eviction
sweep.  Report UID (1,2) to a fresh universe (its manufacturer request is
issued, its device action stays queued), then report an empty UID set: the
sweep evicts the entry while (1,2) still sits in the pending queue. -/
theorem c3_counterexample :
    ((⟨1, 2⟩, uid_resolve_action.RESOLVE_DEVICE) : UID × uid_resolve_action) ∈
        ((HandleUIDList (fun _ _ => true) [] ""
          (HandleUIDList (fun _ _ => true) [⟨1, 2⟩] ""
            initialUidState).1).1).pending_uids
    ∧ lookupUID ((HandleUIDList (fun _ _ => true) [] ""
          (HandleUIDList (fun _ _ => true) [⟨1, 2⟩] ""
            initialUidState).1).1).resolved_uids ⟨1, 2⟩ = none := by
  constructor <;> decide

/-- Claim C3 as amended: the eager-entry half of the claim holds — at the
end of any `HandleUIDList` state update, every UID of the reported set has
an entry in the resolved map, marked active, and a UID that was untracked
before got the entry with empty labels created at the moment its two
actions were enqueued.  The containment of the whole pending queue in the
resolved map, however, is not an invariant: the eviction sweep of a later
report can remove an entry whose UID still has a queued action (label
writes for such UIDs are then silently dropped). -/
theorem c3_eager_entry_at_enqueue :
    ∀ (uids : List UID) (s : uid_resolution_state) (u : UID),
      uids.Nodup → (s.resolved_uids.map Prod.fst).Nodup → u ∈ uids →
      ∃ e : resolved_uid,
        lookupUID (handleUIDListUpdate uids s).resolved_uids u = some e
        ∧ e.active = true
        ∧ (lookupUID s.resolved_uids u = none →
            e = { manufacturer := "", device := "", active := true }) := by
  intro uids s u hnd hkeys hm
  have hfold := foldl_processUID_mem u uids
    { s with resolved_uids := markInactive s.resolved_uids } hnd hm
  have hknd : (((uids.foldl processUID
      { s with resolved_uids := markInactive s.resolved_uids
      }).resolved_uids).map Prod.fst).Nodup := by
    apply foldl_processUID_keys_nodup
    show ((markInactive s.resolved_uids).map Prod.fst).Nodup
    rw [keys_markInactive]
    exact hkeys
  cases hcase : lookupUID s.resolved_uids u with
  | none =>
      refine ⟨{ manufacturer := "", device := "", active := true },
        ?_, rfl, fun _ => rfl⟩
      have hlook1 : lookupUID ({ s with
          resolved_uids := markInactive s.resolved_uids } :
            uid_resolution_state).resolved_uids u = none := by
        show lookupUID (markInactive s.resolved_uids) u = _
        rw [lookup_markInactive, hcase]
        rfl
      show lookupUID (sweepInactive (uids.foldl processUID
        { s with resolved_uids := markInactive s.resolved_uids
        }).resolved_uids) u = _
      rw [lookup_sweep _ _ hknd, hfold.1, hlook1]
      rfl
  | some e =>
      refine ⟨{ e with active := true }, ?_, rfl, fun hn => ?_⟩
      · have hlook1 : lookupUID ({ s with
            resolved_uids := markInactive s.resolved_uids } :
              uid_resolution_state).resolved_uids u =
            some ({ e with active := false }) := by
          show lookupUID (markInactive s.resolved_uids) u = _
          rw [lookup_markInactive, hcase]
          rfl
        show lookupUID (sweepInactive (uids.foldl processUID
          { s with resolved_uids := markInactive s.resolved_uids
          }).resolved_uids) u = _
        rw [lookup_sweep _ _ hknd, hfold.1, hlook1]
        simp
      · exact Option.noConfusion hn

/-- Claim C3 amended, witness: a freshly reported UID ends the update with
its eagerly created empty, active entry present. -/
theorem c3_eager_entry_at_enqueue_witness :
    ∃ e : resolved_uid,
      lookupUID (handleUIDListUpdate [⟨3, 4⟩] initialUidState).resolved_uids
          ⟨3, 4⟩ = some e
      ∧ e.active = true
      ∧ (lookupUID initialUidState.resolved_uids ⟨3, 4⟩ = none →
          e = { manufacturer := "", device := "", active := true }) :=
  c3_eager_entry_at_enqueue [⟨3, 4⟩] initialUidState ⟨3, 4⟩ (by decide)
    (by decide) (by decide)

/-- Claim C2, code-bug evidence.  First conjunct: a nacked definition
fetch hands a null definition to the value fetch (which is still issued —
the fetch-regardless half of the claim holds).  Second conjunct: when
that value fetch then succeeds, the rendering dereferences the null
definition while building the Present Value line (lines 1409-1411), so
instead of a result built from the value response alone the handler hits
undefined behavior — the claim's tolerance requirement is violated.
Third conjunct: the error path does handle a null definition, so the
failure is specific to the successful-value path. -/
theorem c2_null_definition_dereference :
    SensorDefinitionHandler ⟨ResponseType.REQUEST_NACKED, "", 0⟩
        { type := 0, unit := 0, prefixCode := 0, range_min := 0,
          range_max := 0, normal_min := 0, normal_max := 0,
          recorded_value_support := 0, description := "" } = none
    ∧ SensorValueHandler
        (SensorDefinitionHandler ⟨ResponseType.REQUEST_NACKED, "", 0⟩
          { type := 0, unit := 0, prefixCode := 0, range_min := 0,
            range_max := 0, normal_min := 0, normal_max := 0,
            recorded_value_support := 0, description := "" })
        ⟨ResponseType.VALID_RESPONSE, "", 0⟩ ⟨7, 0, 0, 0⟩ = none
    ∧ SensorValueHandler none ⟨ResponseType.REQUEST_NACKED, "", 0⟩
        ⟨7, 0, 0, 0⟩ =
      some (SensorValueResult.errorResponse
        "Request was NACKED with code: 0") :=
  ⟨rfl, rfl, rfl⟩

/-- Claim C1, counterexample: under the full operation set — the prune
sweep included — the claimed invariant "at most one resolution request
outstanding per universe at every instant" fails.  Trace: report
UID (1,2) to a fresh universe (its manufacturer request is issued and
stays in flight); `PruneUniverseList` runs with this universe absent
from the active list (the state is destroyed, the request is not
cancelled); report UID (1,2) again: `GetUniverseUidsOrCreate` rebuilds
the state with the flag down and `HandleUIDList` issues a second
request.  The configuration below is reachable with two requests in
flight for the same universe while the recreated flag accounts for only
one of them. -/
theorem c1_counterexample :
    ReachablePrune (fun _ _ => true)
      (some { resolved_uids :=
                [(⟨1, 2⟩,
                  { manufacturer := "", device := "", active := true })],
              pending_uids :=
                [(⟨1, 2⟩, uid_resolve_action.RESOLVE_DEVICE)],
              uid_resolution_running := true, active := true }) 2
    ∧ 1 < 2 := by
  refine ⟨?_, by decide⟩
  have h0 : ReachablePrune (fun _ _ => true) none 0 := ReachablePrune.start
  have h1 : ReachablePrune (fun _ _ => true)
      (some { resolved_uids :=
                [(⟨1, 2⟩,
                  { manufacturer := "", device := "", active := true })],
              pending_uids :=
                [(⟨1, 2⟩, uid_resolve_action.RESOLVE_DEVICE)],
              uid_resolution_running := true, active := true }) 1 :=
    ReachablePrune.handle [⟨1, 2⟩] "" none 0 h0
  have h2 : ReachablePrune (fun _ _ => true) none 1 :=
    ReachablePrune.prune false _ 1 h1
  exact ReachablePrune.handle [⟨1, 2⟩] "" none 1 h2
